import Mathlib

/-!
# ne-go: SSH public key client and ACL template test helpers

A shallow embedding of `rest_sshkey.go` and of the assertion helpers of
`rest_client_acltemplate_test.go`.

* Go strings are `String`, Go `int` is `Int`.
* A Go slice is `Slice α = Option (List α)`: `none` is the nil slice, `some l` a
  non-nil slice with elements `l` (so `some []` is the empty, non-nil slice).
* A Go `error` is `Option ε`: `none` is the nil error.
* A Go pointer result `*T` is `Option T`: `none` is the nil pointer.
* `RestClient.Execute` is an abstract call: a client method is a `Call` tree whose
  `exec` nodes are the calls of `Execute`, and `Call.run` interprets the tree
  against any behaviour of `Execute`, recording the requests that were issued.
-/

set_option autoImplicit false

/-! ## Go slices -/

/-- A Go slice: `none` is nil, `some l` is a non-nil slice holding `l`. -/
abbrev Slice (α : Type) := Option (List α)

namespace Slice

variable {α : Type}

/-- The elements of a slice; the nil slice has none. -/
def elems : Slice α → List α
  | none => []
  | some l => l

/-- Go `len(s)`; the nil slice has length 0. -/
def len (s : Slice α) : Nat := (elems s).length

/-- Go `make([]T, n)`: a non-nil slice of `n` zero values. -/
def make [Inhabited α] (n : Nat) : Slice α := some (List.replicate n default)

end Slice

/-! ## Wire types (package `internal/api`) -/

namespace api

/-- Modelled from the spec: the declaration of `api.SSHPublicKey` is not under src/.
The fields `UUID`, `KeyName` and `KeyValue` are the ones `rest_sshkey.go` reads and
writes; `other` stands for whatever further fields the struct declares, which a
composite literal that does not name them leaves at their zero value. -/
structure SSHPublicKey (ρ : Type) where
  UUID : String
  KeyName : String
  KeyValue : String
  other : ρ
  deriving DecidableEq, Repr

instance {ρ : Type} [Inhabited ρ] : Inhabited (SSHPublicKey ρ) := ⟨⟨"", "", "", default⟩⟩

/-- Modelled from the spec: the declaration of `api.SSHPublicKeyCreateResponse` is
not under src/; `UUID` is the field `CreateSSHPublicKey` reads. -/
structure SSHPublicKeyCreateResponse where
  UUID : String
  deriving DecidableEq, Repr

instance : Inhabited SSHPublicKeyCreateResponse := ⟨⟨""⟩⟩

/-- Modelled from the spec: the declaration of `api.ACLTemplateInboundRule` is not
under src/; by the spec the wire struct mirrors the domain struct field by field. -/
structure ACLTemplateInboundRule where
  SeqNo : Int
  SrcType : String
  FQDN : String
  Subnets : Slice String
  Protocol : String
  SrcPort : String
  DstPort : String
  deriving DecidableEq, Repr

/-- Modelled from the spec: the declaration of `api.ACLTemplate` is not under src/;
the fields are the ones `verifyACLTemplate` reads. -/
structure ACLTemplate where
  UUID : String
  Name : String
  Description : String
  MetroCode : String
  VirtualDeviceUUID : String
  DeviceACLStatus : String
  InboundRules : Slice ACLTemplateInboundRule
  deriving DecidableEq, Repr

/-- Modelled from the spec: the declaration of `api.BGPConfigurationCreateResponse`
is not under src/; `UUID` is the field `TestCreateACLTemplate` reads. -/
structure BGPConfigurationCreateResponse where
  UUID : String
  deriving DecidableEq, Repr

instance : Inhabited BGPConfigurationCreateResponse := ⟨⟨""⟩⟩

end api

/-! ## Assertions of testify (package `assert`)

Every assertion returns whether it passed; a helper returns the results of the
assertions it made, in order. -/

namespace assert

/-- The assertion `assert.Equal(t, expected, actual)`. -/
def Equal {α : Type} [DecidableEq α] (expected actual : α) : Bool :=
  decide (expected = actual)

/-- The assertion `assert.ElementsMatch(t, listA, listB)`: both lists hold the same
elements with the same multiplicities, in any order; nil and empty are alike. -/
def ElementsMatch {α : Type} [DecidableEq α] (listA listB : Slice α) : Bool :=
  decide ((Slice.elems listA).Perm (Slice.elems listB))

/-- The assertion `assert.Nil(t, err)` on an error value. -/
def Nil {ε : Type} (err : Option ε) : Bool := err.isNone

/-- All the assertions of a run passed. -/
def passed (results : List Bool) : Bool := results.all id

end assert

/-! ## Package `ne` -/

namespace ne

/-- Modelled from the spec: the declaration of the domain type `SSHPublicKey` is not
under src/; its fields are the three the mapping functions use. -/
structure SSHPublicKey where
  UUID : String
  Name : String
  Value : String
  deriving DecidableEq, Repr

instance : Inhabited SSHPublicKey := ⟨⟨"", "", ""⟩⟩

/-- The function `mapSSHPublicKeyAPIToDomain` of `rest_sshkey.go`. -/
def mapSSHPublicKeyAPIToDomain {ρ : Type} (apiKey : api.SSHPublicKey ρ) : SSHPublicKey :=
  { UUID := apiKey.UUID
    Name := apiKey.KeyName
    Value := apiKey.KeyValue }

/-- The function `mapSSHPublicKeyDomainToAPI` of `rest_sshkey.go`; fields the literal
does not name are zero. -/
def mapSSHPublicKeyDomainToAPI {ρ : Type} [Inhabited ρ] (key : SSHPublicKey) :
    api.SSHPublicKey ρ :=
  { UUID := key.UUID
    KeyName := key.Name
    KeyValue := key.Value
    other := default }

/-- The function `mapSSHPublicKeysAPIToDomain` of `rest_sshkey.go`:
`transformed := make([]SSHPublicKey, len(apiKeys))`, then for each index `i` of
`apiKeys` in increasing order `transformed[i] = mapSSHPublicKeyAPIToDomain(apiKeys[i])`. -/
def mapSSHPublicKeysAPIToDomain {ρ : Type} (apiKeys : Slice (api.SSHPublicKey ρ)) :
    Slice SSHPublicKey :=
  let transformed : Slice SSHPublicKey := Slice.make (Slice.len apiKeys)
  (List.finRange (Slice.elems apiKeys).length).foldl
    (fun (t : Slice SSHPublicKey) i =>
      t.map fun l => l.set i.val (mapSSHPublicKeyAPIToDomain ((Slice.elems apiKeys).get i)))
    transformed

/-! ### The REST client -/

/-- The HTTP verb constants of resty used by the client. -/
def MethodGet : String := "GET"
/-- The resty constant `MethodPost`. -/
def MethodPost : String := "POST"
/-- The resty constant `MethodDelete`. -/
def MethodDelete : String := "DELETE"

/-- What `c.Execute(req, method, path)` receives: the verb, the path, the body given
with `SetBody` (if any) and the current value of the variable given with `SetResult`
(if any). -/
structure Request (Body Res : Type) where
  method : String
  path : String
  body : Option Body
  result : Option Res
  deriving DecidableEq, Repr

/-- What a call of `Execute` leaves behind: the returned error and the value the
`SetResult` variable holds afterwards. -/
structure Outcome (ε Res : Type) where
  err : Option ε
  result : Res
  deriving DecidableEq, Repr

/-- A client method as a tree of `Execute` calls. -/
inductive Call (Req Out α : Type) where
  | ret (a : α) : Call Req Out α
  | exec (req : Req) (k : Out → Call Req Out α) : Call Req Out α

/-- The result of running a client method: the returned value, the requests issued
in order, and the final state of the remote side. -/
structure Ran (Req σ α : Type) where
  value : α
  trace : List Req
  state : σ

/-- Runs a client method against a behaviour of `Execute` over a remote state. -/
def Call.run {Req Out α σ : Type} (Execute : Req → σ → Out × σ) :
    Call Req Out α → σ → Ran Req σ α
  | .ret a, s => { value := a, trace := [], state := s }
  | .exec req k, s =>
    let r := Call.run Execute (k (Execute req s).1) (Execute req s).2
    { r with trace := req :: r.trace }

/-- `c.R()`: a fresh request with neither body nor result. -/
def R {Body Res : Type} : Request Body Res :=
  { method := "", path := "", body := none, result := none }

/-- The resty request method `SetBody`. -/
def Request.SetBody {Body Res : Type} (req : Request Body Res) (b : Body) :
    Request Body Res :=
  { req with body := some b }

/-- The resty request method `SetResult`. -/
def Request.SetResult {Body Res : Type} (req : Request Body Res) (r : Res) :
    Request Body Res :=
  { req with result := some r }

/-- The call `c.Execute(req, method, path)` followed by `k` on its outcome. -/
def Execute {Body Res ε α : Type} (req : Request Body Res) (method path : String)
    (k : Outcome ε Res → Call (Request Body Res) (Outcome ε Res) α) :
    Call (Request Body Res) (Outcome ε Res) α :=
  .exec { req with method := method, path := path } k

/-- The method `RestClient.GetSSHPublicKeys` of `rest_sshkey.go`. -/
def GetSSHPublicKeys {ρ ε : Type} [Inhabited ρ] :
    Call (Request Unit (Slice (api.SSHPublicKey ρ))) (Outcome ε (Slice (api.SSHPublicKey ρ)))
      (Slice SSHPublicKey × Option ε) :=
  let path := "/ne/v1/device/public-keys"
  let respBody : Slice (api.SSHPublicKey ρ) := Slice.make 0
  let req := R.SetResult respBody
  Execute req MethodGet path fun out =>
    match out.err with
    | some err => .ret (none, some err)
    | none => .ret (mapSSHPublicKeysAPIToDomain out.result, none)

/-- The method `RestClient.GetSSHPublicKey` of `rest_sshkey.go`; `PathEscape` is
`url.PathEscape` of the Go standard library. -/
def GetSSHPublicKey {ρ ε : Type} [Inhabited ρ] (PathEscape : String → String)
    (uuid : String) :
    Call (Request Unit (api.SSHPublicKey ρ)) (Outcome ε (api.SSHPublicKey ρ))
      (Option SSHPublicKey × Option ε) :=
  let path := "/ne/v1/device/public-keys/" ++ PathEscape uuid
  let respBody : api.SSHPublicKey ρ := default
  let req := R.SetResult respBody
  Execute req MethodGet path fun out =>
    match out.err with
    | some err => .ret (none, some err)
    | none =>
      let mapped := mapSSHPublicKeyAPIToDomain out.result
      .ret (some mapped, none)

/-- The method `RestClient.CreateSSHPublicKey` of `rest_sshkey.go`. -/
def CreateSSHPublicKey {ρ ε : Type} [Inhabited ρ] (key : SSHPublicKey) :
    Call (Request (api.SSHPublicKey ρ) api.SSHPublicKeyCreateResponse)
      (Outcome ε api.SSHPublicKeyCreateResponse) (String × Option ε) :=
  let path := "/ne/v1/device/public-keys"
  let reqBody : api.SSHPublicKey ρ := mapSSHPublicKeyDomainToAPI key
  let respBody : api.SSHPublicKeyCreateResponse := default
  let req := (R.SetBody reqBody).SetResult respBody
  Execute req MethodPost path fun out =>
    match out.err with
    | some err => .ret ("", some err)
    | none => .ret (out.result.UUID, none)

/-- The method `RestClient.DeleteSSHPublicKey` of `rest_sshkey.go`. -/
def DeleteSSHPublicKey {ε : Type} (PathEscape : String → String) (uuid : String) :
    Call (Request Unit Unit) (Outcome ε Unit) (Option ε) :=
  let path := "/ne/v1/device/public-keys/" ++ PathEscape uuid
  Execute R MethodDelete path fun out =>
    match out.err with
    | some err => .ret (some err)
    | none => .ret none

/-! ### ACL templates -/

/-- Modelled from the spec: the declaration of `ACLTemplateInboundRule` is not under
src/; the fields are the ones the test file sets and reads. -/
structure ACLTemplateInboundRule where
  SeqNo : Int
  SrcType : String
  FQDN : String
  Subnets : Slice String
  Protocol : String
  SrcPort : String
  DstPort : String
  deriving DecidableEq, Repr

/-- Modelled from the spec: the declaration of `ACLTemplate` is not under src/; the
fields are the ones the test file sets and reads. -/
structure ACLTemplate where
  UUID : String
  Name : String
  Description : String
  MetroCode : String
  DeviceUUID : String
  DeviceACLStatus : String
  InboundRules : Slice ACLTemplateInboundRule
  deriving DecidableEq, Repr

/-- The fixture `testACLTemplate` of `rest_client_acltemplate_test.go`. -/
def testACLTemplate : ACLTemplate :=
  { UUID := ""
    Name := "test"
    Description := "Test ACL"
    MetroCode := "SV"
    DeviceUUID := ""
    DeviceACLStatus := ""
    InboundRules := some [
      { SrcType := "SUBNET", SeqNo := 1, FQDN := "", Subnets := some ["10.0.0.0/24"],
        Protocol := "TCP", SrcPort := "any", DstPort := "22" },
      { SrcType := "DOMAIN", SeqNo := 2, FQDN := "", Subnets := some ["216.221.225.13/32"],
        Protocol := "TCP", SrcPort := "any", DstPort := "1024-10000" }] }

/-- The helper `verifyACLTemplateInboundRule` of `rest_client_acltemplate_test.go`:
the results of its seven assertions. -/
def verifyACLTemplateInboundRule (rule : ACLTemplateInboundRule)
    (_apiRule : api.ACLTemplateInboundRule) : List Bool :=
  [ assert.Equal rule.SeqNo rule.SeqNo,
    assert.Equal rule.SrcType rule.SrcType,
    assert.Equal rule.FQDN rule.FQDN,
    assert.ElementsMatch rule.Subnets rule.Subnets,
    assert.Equal rule.Protocol rule.Protocol,
    assert.Equal rule.SrcPort rule.SrcPort,
    assert.Equal rule.DstPort rule.DstPort ]

/-- The helper `verifyACLTemplate` of `rest_client_acltemplate_test.go`: the results
of its assertions, or `none` when `apiTemplate.InboundRules[i]` is out of range. -/
def verifyACLTemplate (template : ACLTemplate) (apiTemplate : api.ACLTemplate) :
    Option (List Bool) :=
  let results : List Bool :=
    [ assert.Equal template.UUID apiTemplate.UUID,
      assert.Equal template.Name apiTemplate.Name,
      assert.Equal template.Description apiTemplate.Description,
      assert.Equal template.MetroCode apiTemplate.MetroCode,
      assert.Equal template.DeviceUUID apiTemplate.VirtualDeviceUUID,
      assert.Equal template.DeviceACLStatus apiTemplate.DeviceACLStatus,
      assert.Equal (Slice.len template.InboundRules) (Slice.len apiTemplate.InboundRules) ]
  (List.finRange (Slice.elems template.InboundRules).length).foldlM
    (fun (acc : List Bool) i =>
      match (Slice.elems apiTemplate.InboundRules)[i.val]? with
      | none => none
      | some apiRule =>
        some (acc ++ verifyACLTemplateInboundRule
          ((Slice.elems template.InboundRules).get i) apiRule))
    results

/-- Modelled from the spec: `mapACLTemplateInboundRuleDomainToAPI` is not under src/;
by the spec the mapping between the two structs is one-to-one, field by field. -/
def mapACLTemplateInboundRuleDomainToAPI (rule : ACLTemplateInboundRule) :
    api.ACLTemplateInboundRule :=
  { SeqNo := rule.SeqNo
    SrcType := rule.SrcType
    FQDN := rule.FQDN
    Subnets := rule.Subnets
    Protocol := rule.Protocol
    SrcPort := rule.SrcPort
    DstPort := rule.DstPort }

/-- Modelled from the spec: `mapACLTemplateDomainToAPI` is not under src/; by the spec
the mapping is one-to-one (`ACLTemplate.UUID ↔ api.ACLTemplate.UUID`, and likewise
for the other fields, `DeviceUUID` being `VirtualDeviceUUID` on the wire), with one
wire rule per inbound rule, in order. -/
def mapACLTemplateDomainToAPI (template : ACLTemplate) : api.ACLTemplate :=
  { UUID := template.UUID
    Name := template.Name
    Description := template.Description
    MetroCode := template.MetroCode
    VirtualDeviceUUID := template.DeviceUUID
    DeviceACLStatus := template.DeviceACLStatus
    InboundRules :=
      some ((Slice.elems template.InboundRules).map mapACLTemplateInboundRuleDomainToAPI) }

/-- Modelled from the spec: `RestClient.CreateACLTemplate` is not under src/; it is the
CRUD create of the spec, shaped like `CreateSSHPublicKey`: a POST on
"/ne/v1/device/acl-template" whose body is the mapped template, answering the UUID of
the response, or the empty string and the error of `Execute`. -/
def CreateACLTemplate {ε : Type} (template : ACLTemplate) :
    Call (Request api.ACLTemplate api.BGPConfigurationCreateResponse)
      (Outcome ε api.BGPConfigurationCreateResponse) (String × Option ε) :=
  let path := "/ne/v1/device/acl-template"
  let reqBody := mapACLTemplateDomainToAPI template
  let respBody : api.BGPConfigurationCreateResponse := default
  let req := (R.SetBody reqBody).SetResult respBody
  Execute req MethodPost path fun out =>
    match out.err with
    | some err => .ret ("", some err)
    | none => .ret (out.result.UUID, none)

/-- A domain inbound rule used to exercise `verifyACLTemplateInboundRule`. -/
def mismatchedRule : ACLTemplateInboundRule :=
  { SeqNo := 1, SrcType := "SUBNET", FQDN := "", Subnets := some ["10.0.0.0/24"],
    Protocol := "TCP", SrcPort := "any", DstPort := "22" }

/-- A wire inbound rule that differs from `mismatchedRule` in every field. -/
def mismatchedAPIRule : api.ACLTemplateInboundRule :=
  { SeqNo := 2, SrcType := "DOMAIN", FQDN := "example.com",
    Subnets := some ["192.168.0.0/16"], Protocol := "UDP", SrcPort := "53",
    DstPort := "1024-10000" }

end ne

/-! ## Theorems -/

namespace ne

/-- Filling a non-nil slice index by index keeps it non-nil. -/
theorem foldl_map_set_some {β : Type} {n : Nat} (f : Fin n → β) (is : List (Fin n))
    (l : List β) :
    is.foldl (fun (t : Slice β) i => t.map fun l => l.set i.val (f i)) (some l)
      = some (is.foldl (fun l i => l.set i.val (f i)) l) := by
  induction is generalizing l with
  | nil => rfl
  | cons i is ih => simp only [List.foldl_cons, Option.map_some']; exact ih _

/-- Length is unchanged by the filling loop. -/
theorem length_foldl_set {β : Type} {n : Nat} (f : Fin n → β) (is : List (Fin n))
    (l : List β) :
    (is.foldl (fun l i => l.set i.val (f i)) l).length = l.length := by
  induction is generalizing l with
  | nil => rfl
  | cons i is ih => simp only [List.foldl_cons]; rw [ih]; simp

/-- An index the loop visits holds the assigned value afterwards. -/
theorem getElem?_foldl_set {β : Type} {n : Nat} (f : Fin n → β) (is : List (Fin n))
    (l : List β) (hl : l.length = n) (j : Fin n) :
    (is.foldl (fun l i => l.set i.val (f i)) l)[j.val]?
      = if j ∈ is then some (f j) else l[j.val]? := by
  induction is generalizing l with
  | nil => simp
  | cons i is ih =>
    simp only [List.foldl_cons]
    rw [ih _ (by simpa using hl)]
    by_cases hmem : j ∈ is
    · simp [hmem]
    · simp only [hmem, if_false, List.mem_cons, or_false]
      by_cases hji : j = i
      · subst hji
        simp [List.getElem?_set, hl]
      · have : i.val ≠ j.val := fun h => hji (Fin.ext h.symm)
        simp [hji, List.getElem?_set, this]

/-- The make-and-fill loop of `mapSSHPublicKeysAPIToDomain` computes the non-nil list
of the mapped keys, in order. -/
theorem mapSSHPublicKeysAPIToDomain_eq_map {ρ : Type} (apiKeys : Slice (api.SSHPublicKey ρ)) :
    mapSSHPublicKeysAPIToDomain apiKeys
      = some ((Slice.elems apiKeys).map mapSSHPublicKeyAPIToDomain) := by
  unfold mapSSHPublicKeysAPIToDomain Slice.make Slice.len
  simp only []
  rw [foldl_map_set_some (fun i => mapSSHPublicKeyAPIToDomain ((Slice.elems apiKeys).get i))]
  congr 1
  apply List.ext_getElem?
  intro j
  by_cases hj : j < (Slice.elems apiKeys).length
  · have := getElem?_foldl_set (fun i => mapSSHPublicKeyAPIToDomain ((Slice.elems apiKeys).get i))
      (List.finRange _) (List.replicate (Slice.elems apiKeys).length default) (by simp) ⟨j, hj⟩
    simp only [List.mem_finRange, if_true] at this
    rw [this]
    simp [List.getElem?_map, List.getElem?_eq_getElem hj]
  · have h1 : (Slice.elems apiKeys).length ≤ j := Nat.le_of_not_lt hj
    rw [List.getElem?_eq_none (by rw [length_foldl_set]; simpa using h1)]
    simp [List.getElem?_eq_none, h1]


/-- Claim C1: the SSH key mappings are a one-to-one field correspondence. For every
wire key `a` the mapped domain key has `UUID = a.UUID`, `Name = a.KeyName` and
`Value = a.KeyValue`; for every domain key `k` the mapped wire key has `UUID = k.UUID`,
`KeyName = k.Name` and `KeyValue = k.Value`. -/
theorem sshPublicKey_mappings_fieldwise {ρ : Type} [Inhabited ρ]
    (a : api.SSHPublicKey ρ) (k : SSHPublicKey) :
    ((mapSSHPublicKeyAPIToDomain a).UUID = a.UUID
      ∧ (mapSSHPublicKeyAPIToDomain a).Name = a.KeyName
      ∧ (mapSSHPublicKeyAPIToDomain a).Value = a.KeyValue)
    ∧ ((mapSSHPublicKeyDomainToAPI k : api.SSHPublicKey ρ).UUID = k.UUID
      ∧ (mapSSHPublicKeyDomainToAPI k : api.SSHPublicKey ρ).KeyName = k.Name
      ∧ (mapSSHPublicKeyDomainToAPI k : api.SSHPublicKey ρ).KeyValue = k.Value) :=
  ⟨⟨rfl, rfl, rfl⟩, ⟨rfl, rfl, rfl⟩⟩

/-- Claim C2: the two SSH key mappings round-trip. Mapping a domain key to the wire
and back gives the same key; mapping a wire key to the domain and back gives a wire key
with the same `UUID`, `KeyName` and `KeyValue` (every other field being zero). -/
theorem sshPublicKey_roundtrip {ρ : Type} [Inhabited ρ]
    (k : SSHPublicKey) (a : api.SSHPublicKey ρ) :
    mapSSHPublicKeyAPIToDomain (mapSSHPublicKeyDomainToAPI k : api.SSHPublicKey ρ) = k
    ∧ (mapSSHPublicKeyDomainToAPI (mapSSHPublicKeyAPIToDomain a) : api.SSHPublicKey ρ).UUID
        = a.UUID
    ∧ (mapSSHPublicKeyDomainToAPI (mapSSHPublicKeyAPIToDomain a) : api.SSHPublicKey ρ).KeyName
        = a.KeyName
    ∧ (mapSSHPublicKeyDomainToAPI (mapSSHPublicKeyAPIToDomain a) : api.SSHPublicKey ρ).KeyValue
        = a.KeyValue
    ∧ (mapSSHPublicKeyDomainToAPI (mapSSHPublicKeyAPIToDomain a) : api.SSHPublicKey ρ)
        = { a with other := default } :=
  ⟨rfl, rfl, rfl, rfl, rfl⟩


/-- Running a method that returns at once issues no request. -/
theorem Call.run_ret {Req Out α σ : Type} (Exec : Req → σ → Out × σ) (a : α) (s : σ) :
    Call.run Exec (Call.ret a : Call Req Out α) s = { value := a, trace := [], state := s } := by
  simp [Call.run]

/-- Running a method that starts with a call of `Execute` records that request and
continues on the outcome. -/
theorem Call.run_exec {Req Out α σ : Type} (Exec : Req → σ → Out × σ) (req : Req)
    (k : Out → Call Req Out α) (s : σ) :
    Call.run Exec (Call.exec req k) s
      = { value := (Call.run Exec (k (Exec req s).1) (Exec req s).2).value
          trace := req :: (Call.run Exec (k (Exec req s).1) (Exec req s).2).trace
          state := (Call.run Exec (k (Exec req s).1) (Exec req s).2).state } := by
  simp [Call.run]

/-- Claim C3: `GetSSHPublicKeys` issues the single request GET
"/ne/v1/device/public-keys". If `Execute` fails with `e` the result is `(nil, e)`; if it
succeeds leaving `b` in the response variable the result is
`(mapSSHPublicKeysAPIToDomain(b), nil)`, which is the non-nil list of the mapped keys of
`b` in the same order, hence the empty non-nil list when `b` is empty. -/
theorem GetSSHPublicKeys_spec {ρ ε σ : Type} [Inhabited ρ]
    (Exec : Request Unit (Slice (api.SSHPublicKey ρ)) → σ →
      Outcome ε (Slice (api.SSHPublicKey ρ)) × σ) (s : σ) :
    let req : Request Unit (Slice (api.SSHPublicKey ρ)) :=
      { method := "GET", path := "/ne/v1/device/public-keys", body := none,
        result := some (some []) }
    let r := Call.run Exec (GetSSHPublicKeys : Call _ (Outcome ε _) _) s
    r.trace = [req]
    ∧ (∀ e b, (Exec req s).1 = ⟨some e, b⟩ → r.value = (none, some e))
    ∧ (∀ b, (Exec req s).1 = ⟨none, b⟩ →
        r.value = (mapSSHPublicKeysAPIToDomain b, none)
        ∧ r.value = (some ((Slice.elems b).map mapSSHPublicKeyAPIToDomain), none)
        ∧ (Slice.elems b = [] → r.value = (some [], none))) := by
  intro req r
  have hr : r = Call.run Exec (Call.exec req fun out =>
      match out.err with
      | some err => .ret (none, some err)
      | none => .ret (mapSSHPublicKeysAPIToDomain out.result, none)) s := rfl
  rw [Call.run_exec] at hr
  refine ⟨?_, ?_, ?_⟩
  · rw [hr]
    cases h : (Exec req s).1.err <;> simp [Call.run_ret]
  · intro e b h
    rw [hr, h]; simp [Call.run_ret]
  · intro b h
    have hv : r.value = (mapSSHPublicKeysAPIToDomain b, none) := by
      rw [hr, h]; simp [Call.run_ret]
    refine ⟨hv, ?_, ?_⟩
    · rw [hv, mapSSHPublicKeysAPIToDomain_eq_map]
    · intro hb
      rw [hv, mapSSHPublicKeysAPIToDomain_eq_map, hb]; rfl


/-- Claim C3 on a server answering two keys and on a server answering an error. -/
theorem GetSSHPublicKeys_spec_witness :
    (Call.run (fun (_ : Request Unit (Slice (api.SSHPublicKey Unit))) (_ : Unit) =>
        ((⟨none, some [⟨"u1", "n1", "v1", ()⟩, ⟨"u2", "n2", "v2", ()⟩]⟩ :
          Outcome Nat (Slice (api.SSHPublicKey Unit))), ()))
      GetSSHPublicKeys ()).value
      = (some [⟨"u1", "n1", "v1"⟩, ⟨"u2", "n2", "v2"⟩], none)
    ∧ (Call.run (fun (_ : Request Unit (Slice (api.SSHPublicKey Unit))) (_ : Unit) =>
        ((⟨some 500, some []⟩ : Outcome Nat (Slice (api.SSHPublicKey Unit))), ()))
      GetSSHPublicKeys ()).value = (none, some 500) :=
  ⟨((GetSSHPublicKeys_spec _ ()).2.2
      (some [⟨"u1", "n1", "v1", ()⟩, ⟨"u2", "n2", "v2", ()⟩]) rfl).2.1,
   (GetSSHPublicKeys_spec _ ()).2.1 500 (some []) rfl⟩

/-- Claim C4: `GetSSHPublicKey` issues the single request GET on
"/ne/v1/device/public-keys/" followed by the escaped identifier. If `Execute` fails with
`e` the result is `(nil, e)`; if it succeeds leaving `a` in the response variable the
result is a non-nil pointer to `mapSSHPublicKeyAPIToDomain(a)` and a nil error. In every
case exactly one of the two results is non-nil. -/
theorem GetSSHPublicKey_spec {ρ ε σ : Type} [Inhabited ρ] (PathEscape : String → String)
    (uuid : String)
    (Exec : Request Unit (api.SSHPublicKey ρ) → σ → Outcome ε (api.SSHPublicKey ρ) × σ)
    (s : σ) :
    let req : Request Unit (api.SSHPublicKey ρ) :=
      { method := "GET", path := "/ne/v1/device/public-keys/" ++ PathEscape uuid,
        body := none, result := some ⟨"", "", "", default⟩ }
    let r := Call.run Exec (GetSSHPublicKey PathEscape uuid : Call _ (Outcome ε _) _) s
    r.trace = [req]
    ∧ (∀ e a, (Exec req s).1 = ⟨some e, a⟩ → r.value = (none, some e))
    ∧ (∀ a, (Exec req s).1 = ⟨none, a⟩ →
        r.value = (some (mapSSHPublicKeyAPIToDomain a), none))
    ∧ ((r.value.1 ≠ none ∧ r.value.2 = none) ∨ (r.value.1 = none ∧ r.value.2 ≠ none)) := by
  intro req r
  have hr : r = Call.run Exec (Call.exec req fun out =>
      match out.err with
      | some err => .ret (none, some err)
      | none => .ret (some (mapSSHPublicKeyAPIToDomain out.result), none)) s := rfl
  rw [Call.run_exec] at hr
  refine ⟨?_, ?_, ?_, ?_⟩
  · rw [hr]
    cases h : (Exec req s).1.err <;> simp [Call.run_ret]
  · intro e a h
    rw [hr, h]; simp [Call.run_ret]
  · intro a h
    rw [hr, h]; simp [Call.run_ret]
  · rw [hr]
    cases h : (Exec req s).1.err <;> simp [Call.run_ret]

/-- Claim C4 on a server answering a key and on a server answering an error. -/
theorem GetSSHPublicKey_spec_witness :
    (Call.run (fun (_ : Request Unit (api.SSHPublicKey Unit)) (_ : Unit) =>
        ((⟨none, ⟨"u1", "n1", "v1", ()⟩⟩ : Outcome Nat (api.SSHPublicKey Unit)), ()))
      (GetSSHPublicKey id "u1") ()).value = (some ⟨"u1", "n1", "v1"⟩, none)
    ∧ (Call.run (fun (_ : Request Unit (api.SSHPublicKey Unit)) (_ : Unit) =>
        ((⟨some 404, default⟩ : Outcome Nat (api.SSHPublicKey Unit)), ()))
      (GetSSHPublicKey id "u1") ()).value = (none, some 404) :=
  ⟨(GetSSHPublicKey_spec id "u1" _ ()).2.2.1 ⟨"u1", "n1", "v1", ()⟩ rfl,
   (GetSSHPublicKey_spec id "u1" _ ()).2.1 404 default rfl⟩

/-- Claim C5: `CreateSSHPublicKey` issues the single request POST
"/ne/v1/device/public-keys" whose body is `mapSSHPublicKeyDomainToAPI(k)`. If `Execute`
succeeds the result is the `UUID` of the response and a nil error; if it fails with `e`
the result is `("", e)`; so an error never comes with a non-empty identifier. -/
theorem CreateSSHPublicKey_spec {ρ ε σ : Type} [Inhabited ρ] (key : SSHPublicKey)
    (Exec : Request (api.SSHPublicKey ρ) api.SSHPublicKeyCreateResponse → σ →
      Outcome ε api.SSHPublicKeyCreateResponse × σ)
    (s : σ) :
    let req : Request (api.SSHPublicKey ρ) api.SSHPublicKeyCreateResponse :=
      { method := "POST", path := "/ne/v1/device/public-keys",
        body := some (mapSSHPublicKeyDomainToAPI key), result := some ⟨""⟩ }
    let r := Call.run Exec (CreateSSHPublicKey key : Call _ (Outcome ε _) _) s
    r.trace = [req]
    ∧ (∀ resp, (Exec req s).1 = ⟨none, resp⟩ → r.value = (resp.UUID, none))
    ∧ (∀ e resp, (Exec req s).1 = ⟨some e, resp⟩ → r.value = ("", some e))
    ∧ (r.value.2 ≠ none → r.value.1 = "") := by
  intro req r
  have hr : r = Call.run Exec (Call.exec req fun out =>
      match out.err with
      | some err => .ret ("", some err)
      | none => .ret (out.result.UUID, none)) s := rfl
  rw [Call.run_exec] at hr
  refine ⟨?_, ?_, ?_, ?_⟩
  · rw [hr]
    cases h : (Exec req s).1.err <;> simp [Call.run_ret]
  · intro resp h
    rw [hr, h]; simp [Call.run_ret]
  · intro e resp h
    rw [hr, h]; simp [Call.run_ret]
  · rw [hr]
    cases h : (Exec req s).1.err <;> simp [Call.run_ret]

/-- Claim C5 on a server answering an identifier and on a server answering an error. -/
theorem CreateSSHPublicKey_spec_witness :
    (Call.run (fun (_ : Request (api.SSHPublicKey Unit) api.SSHPublicKeyCreateResponse)
        (_ : Unit) => ((⟨none, ⟨"new-uuid"⟩⟩ : Outcome Nat api.SSHPublicKeyCreateResponse), ()))
      (CreateSSHPublicKey ⟨"", "n1", "v1"⟩) ()).value = ("new-uuid", none)
    ∧ (Call.run (fun (_ : Request (api.SSHPublicKey Unit) api.SSHPublicKeyCreateResponse)
        (_ : Unit) => ((⟨some 400, ⟨"ignored"⟩⟩ : Outcome Nat api.SSHPublicKeyCreateResponse), ()))
      (CreateSSHPublicKey ⟨"", "n1", "v1"⟩) ()).value = ("", some 400) :=
  ⟨(CreateSSHPublicKey_spec ⟨"", "n1", "v1"⟩ _ ()).2.1 ⟨"new-uuid"⟩ rfl,
   (CreateSSHPublicKey_spec ⟨"", "n1", "v1"⟩ _ ()).2.2.1 400 ⟨"ignored"⟩ rfl⟩

/-- Claim C6: `DeleteSSHPublicKey` issues exactly one request, a DELETE without body
on "/ne/v1/device/public-keys/" followed by the escaped identifier; it returns nil if and
only if `Execute` returns nil, and returns `e` itself when `Execute` fails with `e`. -/
theorem DeleteSSHPublicKey_spec {ε σ : Type} (PathEscape : String → String) (uuid : String)
    (Exec : Request Unit Unit → σ → Outcome ε Unit × σ) (s : σ) :
    let req : Request Unit Unit :=
      { method := "DELETE", path := "/ne/v1/device/public-keys/" ++ PathEscape uuid,
        body := none, result := none }
    let r := Call.run Exec (DeleteSSHPublicKey PathEscape uuid : Call _ (Outcome ε _) _) s
    r.trace = [req]
    ∧ (r.value = none ↔ (Exec req s).1.err = none)
    ∧ (∀ e, (Exec req s).1.err = some e → r.value = some e) := by
  intro req r
  have hr : r = Call.run Exec (Call.exec req fun out =>
      match out.err with
      | some err => .ret (some err)
      | none => .ret none) s := rfl
  rw [Call.run_exec] at hr
  refine ⟨?_, ?_, ?_⟩
  · rw [hr]
    cases h : (Exec req s).1.err <;> simp [Call.run_ret]
  · rw [hr]
    cases h : (Exec req s).1.err <;> simp [Call.run_ret]
  · intro e h
    rw [hr, h]; simp [Call.run_ret]

/-- Claim C6 on a server answering an error. -/
theorem DeleteSSHPublicKey_spec_witness :
    (Call.run (fun (_ : Request Unit Unit) (_ : Unit) =>
        ((⟨some 404, ()⟩ : Outcome Nat Unit), ()))
      (DeleteSSHPublicKey id "u1") ()).value = some 404 :=
  (DeleteSSHPublicKey_spec id "u1" _ ()).2.2 404 rfl


/-- Every assertion of `verifyACLTemplateInboundRule` compares a field of `rule`
with itself, so all of them pass whatever `apiRule` is. -/
theorem verifyACLTemplateInboundRule_passed (rule : ACLTemplateInboundRule)
    (apiRule : api.ACLTemplateInboundRule) :
    assert.passed (verifyACLTemplateInboundRule rule apiRule) = true := by
  simp [verifyACLTemplateInboundRule, assert.passed, assert.Equal, assert.ElementsMatch]

/-- The assertions of two runs all passed exactly when each run's did. -/
theorem passed_append (xs ys : List Bool) :
    assert.passed (xs ++ ys) = (assert.passed xs && assert.passed ys) := by
  simp [assert.passed]

/-- The rule loop of `verifyACLTemplate` does not run out of range on a wire list at
least as long as the visited indices, and adds only passing assertions. -/
theorem verifyRules_loop {n : Nat} (rules : Fin n → ACLTemplateInboundRule)
    (apiRules : List api.ACLTemplateInboundRule) (hlen : n ≤ apiRules.length)
    (is : List (Fin n)) (acc : List Bool) (hacc : assert.passed acc = true) :
    ∃ results,
      is.foldlM (fun (acc : List Bool) i =>
        match apiRules[i.val]? with
        | none => none
        | some apiRule => some (acc ++ verifyACLTemplateInboundRule (rules i) apiRule)) acc
        = some results
      ∧ assert.passed results = true := by
  induction is generalizing acc with
  | nil => exact ⟨acc, rfl, hacc⟩
  | cons i is ih =>
    have hi : i.val < apiRules.length := Nat.lt_of_lt_of_le i.isLt hlen
    simp only [List.foldlM_cons, List.getElem?_eq_getElem hi, Option.bind_eq_bind,
      Option.some_bind]
    apply ih
    rw [passed_append, hacc, verifyACLTemplateInboundRule_passed]
    rfl

/-- Claim C7: when `Execute` accepts the POST on "/ne/v1/device/acl-template" and
leaves a response carrying a UUID, `CreateACLTemplate(t)` returns that UUID and a nil
error, and the body of the one request it sent is a wire template whose `UUID`, `Name`,
`Description`, `MetroCode`, `VirtualDeviceUUID` (the `DeviceUUID` of `t`) and
`DeviceACLStatus` equal those of `t`, with as many inbound rules as `t`; every assertion
of `verifyACLTemplate` on `t` and that body passes. -/
theorem CreateACLTemplate_spec {ε σ : Type} (t : ACLTemplate)
    (Exec : Request api.ACLTemplate api.BGPConfigurationCreateResponse → σ →
      Outcome ε api.BGPConfigurationCreateResponse × σ)
    (s : σ) (resp : api.BGPConfigurationCreateResponse)
    (h : (Exec { method := "POST", path := "/ne/v1/device/acl-template",
                 body := some (mapACLTemplateDomainToAPI t), result := some ⟨""⟩ } s).1
          = ⟨none, resp⟩) :
    let r := Call.run Exec (CreateACLTemplate t : Call _ (Outcome ε _) _) s
    r.value = (resp.UUID, none)
    ∧ ∃ reqBody : api.ACLTemplate,
        r.trace = [{ method := "POST", path := "/ne/v1/device/acl-template",
                     body := some reqBody, result := some ⟨""⟩ }]
        ∧ reqBody.UUID = t.UUID
        ∧ reqBody.Name = t.Name
        ∧ reqBody.Description = t.Description
        ∧ reqBody.MetroCode = t.MetroCode
        ∧ reqBody.VirtualDeviceUUID = t.DeviceUUID
        ∧ reqBody.DeviceACLStatus = t.DeviceACLStatus
        ∧ Slice.len reqBody.InboundRules = Slice.len t.InboundRules
        ∧ ∃ results, verifyACLTemplate t reqBody = some results
            ∧ assert.passed results = true := by
  intro r
  have hr : r = Call.run Exec (Call.exec
      { method := "POST", path := "/ne/v1/device/acl-template",
        body := some (mapACLTemplateDomainToAPI t), result := some ⟨""⟩ } fun out =>
      match out.err with
      | some err => .ret ("", some err)
      | none => .ret (out.result.UUID, none)) s := rfl
  rw [Call.run_exec, h] at hr
  have hlen : Slice.len (mapACLTemplateDomainToAPI t).InboundRules
      = Slice.len t.InboundRules := by
    simp [mapACLTemplateDomainToAPI, Slice.len, Slice.elems]
  refine ⟨by rw [hr]; simp [Call.run_ret], mapACLTemplateDomainToAPI t,
    by rw [hr]; simp [Call.run_ret], rfl, rfl, rfl, rfl, rfl, rfl, hlen, ?_⟩
  unfold verifyACLTemplate
  apply verifyRules_loop
  · exact Nat.le_of_eq hlen.symm
  · simp [assert.passed, assert.Equal, mapACLTemplateDomainToAPI, Slice.len, Slice.elems]

/-- Claim C7 on the fixture `testACLTemplate` and a server answering an identifier. -/
theorem CreateACLTemplate_spec_witness :
    let Exec := fun (_ : Request api.ACLTemplate api.BGPConfigurationCreateResponse)
        (_ : Unit) =>
          ((⟨none, ⟨"db66bf49"⟩⟩ : Outcome Nat api.BGPConfigurationCreateResponse), ())
    (Exec { method := "POST", path := "/ne/v1/device/acl-template",
            body := some (mapACLTemplateDomainToAPI testACLTemplate),
            result := some ⟨""⟩ } ()).1 = ⟨none, ⟨"db66bf49"⟩⟩
    ∧ (Call.run Exec (CreateACLTemplate testACLTemplate) ()).value = ("db66bf49", none)
    ∧ ∃ results,
        verifyACLTemplate testACLTemplate (mapACLTemplateDomainToAPI testACLTemplate)
          = some results
        ∧ assert.passed results = true := by
  intro Exec
  have h := CreateACLTemplate_spec testACLTemplate Exec () ⟨"db66bf49"⟩ rfl
  obtain ⟨hv, reqBody, htrace, -, -, -, -, -, -, -, hverify⟩ := h
  have hb : reqBody = mapACLTemplateDomainToAPI testACLTemplate := by
    have hbody : some (mapACLTemplateDomainToAPI testACLTemplate) = some reqBody :=
      congrArg Request.body (List.cons.inj htrace).1
    exact (Option.some.inj hbody).symm
  exact ⟨rfl, hv, hb ▸ hverify⟩

/-- Claim C8, evaluated: on `mismatchedRule` and `mismatchedAPIRule`, which differ in
`SeqNo`, `SrcType`, `FQDN`, `Subnets`, `Protocol`, `SrcPort` and `DstPort`, every assertion
of `verifyACLTemplateInboundRule` passes. -/
theorem verifyACLTemplateInboundRule_ignores_apiRule :
    assert.passed (verifyACLTemplateInboundRule mismatchedRule mismatchedAPIRule) = true
    ∧ mismatchedRule.SeqNo ≠ mismatchedAPIRule.SeqNo
    ∧ mismatchedRule.SrcType ≠ mismatchedAPIRule.SrcType
    ∧ mismatchedRule.FQDN ≠ mismatchedAPIRule.FQDN
    ∧ ¬ (Slice.elems mismatchedRule.Subnets).Perm (Slice.elems mismatchedAPIRule.Subnets)
    ∧ mismatchedRule.Protocol ≠ mismatchedAPIRule.Protocol
    ∧ mismatchedRule.SrcPort ≠ mismatchedAPIRule.SrcPort
    ∧ mismatchedRule.DstPort ≠ mismatchedAPIRule.DstPort := by
  refine ⟨verifyACLTemplateInboundRule_passed _ _, ?_⟩
  decide

end ne
